import Mathlib

/-!
Shallow embedding of the customer-support chat widget in
`chat-widget.js` (the first `ChatWidget` object, lines 17-2679, which is
the one the repository documents).  Browser-side mutable state becomes a
`WidgetState` record, socket emissions and other observable actions
become an explicit `Effect` list, the DOM message area becomes a list of
`MessageEl` records, and `localStorage` becomes an `Option StoredSession`
threaded through the storage functions.  Nondeterministic inputs of the
JavaScript (freshly generated temporary ids, `Date.now()`, upload
outcomes) are passed as explicit parameters.
-/

namespace ChatWidget

/-- JavaScript truthiness of an optional string: `null`/`undefined` and
the empty string are falsy (`if (this.state.session.chatSessionId)`). -/
def optTruthy : Option String → Bool
  | none => false
  | some s => s ≠ ""

/-- JavaScript `a || b` on strings: the empty string is falsy and falls
through to `b` (used by `storeSession` for the customer name fields). -/
def jsOr (a b : String) : String :=
  if a = "" then b else a

/-- JavaScript `String.prototype.trim`: strip whitespace from both
ends. -/
def jsTrim (s : String) : String :=
  ⟨((s.data.dropWhile Char.isWhitespace).reverse.dropWhile
      Char.isWhitespace).reverse⟩

/-- A file reference as sent in a message's `files` array:
`{ fileName, uri }` (built in `sendMessageWithFiles`). -/
structure FileRef where
  fileName : String
  uri : String
  deriving Repr, DecidableEq

/-- The payload of a `send-message` emission (`messageData` in
`sendTextMessage` / `sendMessageWithFiles`).  `files` is `none` for a
text-only message, which has no `files` field at all. -/
structure MessageData where
  message : String
  chatId : Option String
  sender_type : Nat
  source : String
  chatSessionId : Option String
  files : Option (List FileRef)
  deriving Repr, DecidableEq

/-- The record `storeSession` writes to
`localStorage["chat_widget_session"]`. -/
structure StoredSession where
  customerId : String
  chatSessionId : String
  customerName : String
  customerPhone : String
  customerEmail : String
  timestamp : Int
  status : String
  deriving Repr, DecidableEq

/-- Observable actions of the widget: socket emissions, the socket
connection attempt (`initSocket`), HTTP file uploads, `localStorage`
writes, and transient error banners (`showErrorMessage`). -/
inductive Effect where
  | emitSendMessage (data : MessageData)
  | emitTypingStart (sessionId : String)
  | emitTypingStop (sessionId : String)
  | emitValidateSession (customerId : Option String) (chatSessionId : String)
  | emitCustomerResumeSession (customerId : Option String)
      (chatSessionId : String) (customerName : String)
  | emitGetChatHistory (chatSessionId : String)
  | connectSocket
  | writeStorage (record : StoredSession)
  | uploadFile (fileId : String) (success : Bool)
  | banner (text : String)
  deriving Repr, DecidableEq

/-! ## Session persistence (`storeSession` / `getStoredSession` /
`clearStoredSession` / `validateSession`) -/

/-- The 24-hour expiry window in milliseconds:
`24 * 60 * 60 * 1000` in `getStoredSession`. -/
def sessionExpiryMs : Int := 24 * 60 * 60 * 1000

/-- The session payload handed to `storeSession` (from `chat-started` /
`session-resumed` data).  Absent optional fields are the empty string,
matching JavaScript `undefined || fallback` coalescing via `jsOr`. -/
structure SessionData where
  customerId : String
  chatSessionId : String
  customerName : String
  customerPhone : String
  customerEmail : String
  deriving Repr, DecidableEq

/-- The in-memory `state.customerInfo` record. -/
structure CustomerInfo where
  name : String
  phone : String
  email : String
  deriving Repr, DecidableEq

/-- `storeSession`: builds the record written to local storage, taking
each name field from the payload or falling back to
`state.customerInfo`, stamping `timestamp: Date.now()` and
`status: "active"`. -/
def storeSession (data : SessionData) (info : CustomerInfo) (now : Int) :
    StoredSession :=
  { customerId := data.customerId
    chatSessionId := data.chatSessionId
    customerName := jsOr data.customerName info.name
    customerPhone := jsOr data.customerPhone info.phone
    customerEmail := jsOr data.customerEmail info.email
    timestamp := now
    status := "active" }

/-- `getStoredSession`: returns the stored record if
`Date.now() - session.timestamp < 24*60*60*1000`, otherwise clears
storage (`clearStoredSession`) and returns `null`.  Results are
`(returned value, storage after the call)`. -/
def getStoredSession (store : Option StoredSession) (now : Int) :
    Option StoredSession × Option StoredSession :=
  match store with
  | none => (none, none)
  | some s =>
      if now - s.timestamp < sessionExpiryMs then
        (some s, some s)
      else
        (none, none)

/-- The in-memory `state.session` record. -/
structure Session where
  customerId : Option String
  chatSessionId : Option String
  deriving Repr, DecidableEq

/-- `validateSession`: emits `validate-session` with the in-memory
session's customer and chat ids when a chat session id is set (JS
truthiness) and a socket exists. -/
def validateSession (socketExists : Bool) (sess : Session) : List Effect :=
  if optTruthy sess.chatSessionId ∧ socketExists then
    match sess.chatSessionId with
    | some sid => [.emitValidateSession sess.customerId sid]
    | none => []
  else []

/-- The `visibilitychange` listener from `bindEvents`: calls
`validateSession` only when the document is not hidden, a socket
exists, and `state.session.chatSessionId` is truthy. -/
def onVisibilityChange (hidden socketExists : Bool) (sess : Session) :
    List Effect :=
  if ¬hidden ∧ socketExists ∧ optTruthy sess.chatSessionId then
    validateSession socketExists sess
  else []

/-! ## File validation (`validateFile`) -/

/-- A selected browser `File`'s relevant attributes. -/
structure JsFile where
  name : String
  size : Nat
  type : String
  deriving Repr, DecidableEq

/-- The `config.fileUpload` fields `validateFile` consults. -/
structure FileUploadConfig where
  maxFileSize : Nat
  allowedTypes : List String
  allowedExtensions : List String
  deriving Repr, DecidableEq

/-- The default `config.fileUpload` of the widget (lines 137-154). -/
def defaultFileUpload : FileUploadConfig :=
  { maxFileSize := 10 * 1024 * 1024
    allowedTypes :=
      ["image/jpeg", "image/png", "image/gif", "image/webp",
       "application/pdf", "application/msword",
       "application/vnd.openxmlformats-officedocument.wordprocessingml.document",
       "text/plain", "text/csv"]
    allowedExtensions :=
      [".jpg", ".jpeg", ".png", ".gif", ".webp", ".pdf", ".doc",
       ".docx", ".txt", ".csv"] }

/-- `split('.')` over the character list (JavaScript `String.split` with
a one-character separator; an empty string yields `[""]`, matching
JavaScript). -/
def splitOnDotAux : List Char → List Char → List (List Char)
  | [], acc => [acc.reverse]
  | c :: rest, acc =>
      if c = '.' then acc.reverse :: splitOnDotAux rest []
      else splitOnDotAux rest (c :: acc)

/-- `'.' + file.name.split('.').pop().toLowerCase()` from
`validateFile`. -/
def dotExtension (name : String) : String :=
  ⟨'.' :: (((splitOnDotAux name.data []).getLastD []).map Char.toLower)⟩

/-- `validateFile`'s `valid` verdict: reject when
`file.size > maxFileSize`; otherwise accept exactly when the MIME type
is in `allowedTypes` or the lowercased dot-extension is in
`allowedExtensions`. -/
def validateFile (cfg : FileUploadConfig) (f : JsFile) : Bool :=
  if f.size > cfg.maxFileSize then false
  else
    cfg.allowedTypes.contains f.type ||
      cfg.allowedExtensions.contains (dotExtension f.name)

/-! ## Widget state, DOM message list, and message sending -/

/-- A rendered message element in the `.chat-messages` area: its
`data-message-id` attribute, its `classList`, the text of its
`.message-content` child (`none` when that child is absent — the
non-system template renders the content div only for a truthy message
text), and the text of its `.message-status` child (`none` when
absent). -/
structure MessageEl where
  messageId : String
  classes : List String
  content : Option String
  statusText : Option String
  files : List FileRef
  deriving Repr, DecidableEq

/-- An entry of `state.pendingMessages` (keyed in the surrounding
association list by the temporary id). -/
structure PendingInfo where
  message : String
  ptype : String
  files : List FileRef
  deriving Repr, DecidableEq

/-- An entry of `state.attachedFiles` as built by `addFileToPreview`. -/
structure AttachedFile where
  id : String
  fileName : String
  fileSize : Nat
  fileType : String
  uploaded : Bool
  uploadUrl : Option String
  deriving Repr, DecidableEq

/-- The widget's mutable state, restricted to the fields the verified
functions touch.  `pendingMessages` is an insertion-ordered association
list mirroring the JavaScript `Map`; `messages` is the DOM message
list; `inputValue` is `elements.input.value`; `typingTimeout` holds the
delay of the armed `setTimeout` (`none` when cleared). -/
structure WidgetState where
  session : Session
  customerInfo : CustomerInfo
  isTyping : Bool
  isChatStarted : Bool
  inputValue : String
  pendingMessages : List (String × PendingInfo)
  attachedFiles : List AttachedFile
  messages : List MessageEl
  typingTimeout : Option Nat
  deriving Repr, DecidableEq

/-- `classList.add`: appends the class unless already present. -/
def addClass (cs : List String) (c : String) : List String :=
  if cs.contains c then cs else cs ++ [c]

/-- JavaScript `Map.set`: overwrite in place when the key exists,
otherwise append (insertion order preserved). -/
def mapSet (m : List (String × PendingInfo)) (k : String) (v : PendingInfo) :
    List (String × PendingInfo) :=
  if m.any (fun p => p.1 = k) then
    m.map (fun p => if p.1 = k then (k, v) else p)
  else m ++ [(k, v)]

/-- JavaScript `Map.delete`. -/
def mapDelete (m : List (String × PendingInfo)) (k : String) :
    List (String × PendingInfo) :=
  m.filter (fun p => p.1 ≠ k)

/-- The argument record of `addMessage` (the fields the DOM rendering
depends on). -/
structure AddMessageData where
  id : String
  message : String
  sender_type : Nat
  isPending : Bool
  isUploading : Bool
  files : List FileRef
  deriving Repr, DecidableEq

/-- The `className` computed in `addMessage`: sender class from
`sender_type` (0 system, 1 agent, otherwise customer) plus `pending` /
`uploading` flags. -/
def messageClasses (d : AddMessageData) : List String :=
  ["chat-message",
   if d.sender_type = 0 then "system"
   else if d.sender_type = 1 then "agent" else "customer"] ++
  (if d.isPending then ["pending"] else []) ++
  (if d.isUploading then ["uploading"] else [])

/-- The `.message-status` text rendered by `addMessage`: "Sending..."
when pending, "Uploading files..." when uploading, absent otherwise
(system messages render no status element). -/
def messageStatus (d : AddMessageData) : Option String :=
  if d.sender_type = 0 then none
  else if d.isPending then some "Sending..."
  else if d.isUploading then some "Uploading files..."
  else none

/-- The `.message-content` child rendered by `addMessage`: a system
message always gets one, a non-system message only when the text is
truthy (`messageData.message ? '<div class="message-content">…' : ''`),
so an attachment-only message has no content div at all. -/
def messageContent (d : AddMessageData) : Option String :=
  if d.sender_type = 0 then some d.message
  else if d.message = "" then none
  else some d.message

/-- `addMessage`: appends a new message element to the DOM list. -/
def addMessage (st : WidgetState) (d : AddMessageData) : WidgetState :=
  { st with
      messages := st.messages ++
        [{ messageId := d.id
           classes := messageClasses d
           content := messageContent d
           statusText := messageStatus d
           files := d.files }] }

/-- `stopTyping`: when `state.isTyping`, clear the flag and emit
`typing-stop` if a chat session id is set; always clear the typing
timeout (`clearTimeout`). -/
def stopTyping (st : WidgetState) : WidgetState × List Effect :=
  if st.isTyping then
    ({ st with isTyping := false, typingTimeout := none },
     match st.session.chatSessionId with
     | some sid => if sid = "" then [] else [.emitTypingStop sid]
     | none => [])
  else ({ st with typingTimeout := none }, [])

/-- `handleInputChange`: no-op without a truthy chat session id;
otherwise emit `typing-start` on the not-typing-to-typing transition
with non-empty trimmed input, and (re)arm the 1000 ms typing timeout. -/
def handleInputChange (st : WidgetState) : WidgetState × List Effect :=
  let message := jsTrim st.inputValue
  match st.session.chatSessionId with
  | none => (st, [])
  | some sid =>
      if sid = "" then (st, [])
      else
        let (st1, effs) :=
          if ¬st.isTyping ∧ message ≠ "" then
            ({ st with isTyping := true }, [Effect.emitTypingStart sid])
          else (st, [])
        ({ st1 with typingTimeout := some 1000 }, effs)

/-- The typing timeout firing: `setTimeout(() => this.stopTyping(), 1000)`
only runs while the timeout is armed. -/
def typingTimerFire (st : WidgetState) : WidgetState × List Effect :=
  match st.typingTimeout with
  | none => (st, [])
  | some _ => stopTyping st

/-- `sendTextMessage`: emit `send-message`, record the pending message
under the freshly generated temporary id, render the message as
pending, clear the input, and stop typing.  `tempId` stands for
`"pending-" + Date.now() + "-" + random`. -/
def sendTextMessage (st : WidgetState) (tempId message : String) :
    WidgetState × List Effect :=
  let msgData : MessageData :=
    { message := message
      chatId := st.session.chatSessionId
      sender_type := 2
      source := "web"
      chatSessionId := st.session.chatSessionId
      files := none }
  let st1 := { st with
    pendingMessages :=
      mapSet st.pendingMessages tempId
        { message := message, ptype := "text", files := [] } }
  let st2 := addMessage st1
    { id := tempId, message := message, sender_type := 2,
      isPending := true, isUploading := false, files := [] }
  let st3 := { st2 with inputValue := "" }
  let (st4, stopEffs) := stopTyping st3
  (st4, Effect.emitSendMessage msgData :: stopEffs)

/-! ## File upload and send (`uploadAllFiles` / `sendMessageWithFiles` /
`handleSendMessage`) -/

/-- One file's upload outcome inside `uploadAllFiles`: an `uploadFile`
effect, a failure banner when it rejects, and the `uploaded` /
`uploadUrl` mutation when it resolves (`ok` is the outcome of the HTTP
request, `urlFor` the `response.data.data.location` it returns). -/
def uploadOne (ok : String → Bool) (urlFor : String → String)
    (f : AttachedFile) : AttachedFile × List Effect :=
  if ok f.id then
    ({ f with uploaded := true, uploadUrl := some (urlFor f.id) },
     [.uploadFile f.id true])
  else
    (f, [.uploadFile f.id false,
         .banner ("Failed to upload \"" ++ f.fileName ++ "\"")])

/-- `uploadAllFiles`: uploads every not-yet-uploaded attached file,
turning each rejection into `null` (counted here) and keeping the
others; returns the mutated attached-file list, the upload effects in
file order, and the number of successful uploads. -/
def uploadAllFiles (files : List AttachedFile) (ok : String → Bool)
    (urlFor : String → String) :
    List AttachedFile × List Effect × Nat :=
  match files with
  | [] => ([], [], 0)
  | f :: rest =>
      let (rest', effs, n) := uploadAllFiles rest ok urlFor
      if f.uploaded then (f :: rest', effs, n)
      else
        let (f', e) := uploadOne ok urlFor f
        (f' :: rest', e ++ effs, (if ok f.id then 1 else 0) + n)

/-- `sendMessageWithFiles`: render an uploading indicator, upload all
pending files, abort with an error banner when no upload succeeded,
otherwise emit `send-message` whose `files` are exactly the uploaded
attachments (`fileName` + upload `uri`), track the pending message,
render it, and clear input and attachments.  `uploadingId` stands for
`"uploading-" + Date.now()` and `tempId` for the generated pending id. -/
def sendMessageWithFiles (st : WidgetState)
    (message uploadingId tempId : String)
    (ok : String → Bool) (urlFor : String → String) :
    WidgetState × List Effect :=
  let st1 := addMessage st
    { id := uploadingId
      message := if message = "" then "Uploading files..." else message
      sender_type := 2, isPending := true, isUploading := true,
      files := [] }
  let (files', upEffs, succ) := uploadAllFiles st.attachedFiles ok urlFor
  if succ = 0 then
    ({ st1 with attachedFiles := files' },
     upEffs ++ [.banner "All file uploads failed"])
  else
    let msgFiles := (files'.filter (fun f => f.uploaded)).map
      (fun f => FileRef.mk f.fileName (f.uploadUrl.getD ""))
    let msgData : MessageData :=
      { message := message
        chatId := st.session.chatSessionId
        sender_type := 2
        source := "web"
        chatSessionId := st.session.chatSessionId
        files := some msgFiles }
    let st2 := { st1 with
      attachedFiles := files'
      pendingMessages :=
        mapSet st1.pendingMessages tempId
          { message := message, ptype := "file", files := msgFiles } }
    let st3 := addMessage st2
      { id := tempId, message := message, sender_type := 2,
        isPending := true, isUploading := false, files := msgFiles }
    let st4 := { st3 with inputValue := "", attachedFiles := [] }
    let (st5, stopEffs) := stopTyping st4
    (st5, upEffs ++ [Effect.emitSendMessage msgData] ++ stopEffs)

/-- `handleSendMessage`: with empty trimmed input and no attachments do
nothing; without a truthy chat session id show only the error banner;
otherwise dispatch to the file-send or text-send path. -/
def handleSendMessage (st : WidgetState)
    (uploadingId tempId : String)
    (ok : String → Bool) (urlFor : String → String) :
    WidgetState × List Effect :=
  let message := jsTrim st.inputValue
  let hasFiles := st.attachedFiles ≠ []
  if message = "" ∧ ¬hasFiles then (st, [])
  else if ¬optTruthy st.session.chatSessionId then
    (st, [.banner "Chat session not available"])
  else if hasFiles then
    sendMessageWithFiles st message uploadingId tempId ok urlFor
  else
    sendTextMessage st tempId message

/-! ## Acknowledgement and failure reconciliation
(`markMessageAsSent` / `markMessageAsFailed` / `handleMessageError` /
`handleMessageSent`) -/

/-- `querySelector` by `data-message-id`. -/
def findById (msgs : List MessageEl) (id : String) : Option MessageEl :=
  msgs.find? (fun m => m.messageId = id)

/-- Replace the first element with the given `data-message-id` (the
JavaScript code mutates the single queried element). -/
def replaceFirstById (msgs : List MessageEl) (id : String)
    (f : MessageEl → MessageEl) : List MessageEl :=
  match msgs with
  | [] => []
  | m :: rest =>
      if m.messageId = id then f m :: rest
      else m :: replaceFirstById rest id f

/-- The pending-message scan of `markMessageAsSent`: walk the pending
map in insertion order and take the first temporary id whose element
exists in the DOM with the `customer` class. -/
def findPendingMatch (pend : List (String × PendingInfo))
    (msgs : List MessageEl) : Option String :=
  match pend with
  | [] => none
  | (tid, _) :: rest =>
      match findById msgs tid with
      | some el =>
          if el.classes.contains "customer" then some tid
          else findPendingMatch rest msgs
      | none => findPendingMatch rest msgs

/-- The element `markMessageAsSent` will operate on, with the matching
temporary id when it was located through the pending-message scan. -/
def locateAckTarget (st : WidgetState) (messageId : String) :
    Option (String × Option String) :=
  match findById st.messages messageId with
  | some _ => some (messageId, none)
  | none =>
      match findPendingMatch st.pendingMessages st.messages with
      | some tid => some (tid, some tid)
      | none => none

/-- The mutation `markMessageAsSent` applies to the located element:
replace its id by the server id, drop `pending` / `uploading`, add
`sent`, and set the status text ("Sent" when the status is
"delivered", "Delivered" otherwise — as written in the source). -/
def markSentEl (messageId status : String) (el : MessageEl) : MessageEl :=
  { el with
      messageId := messageId
      classes :=
        addClass (el.classes.filter
          (fun c => c ≠ "pending" ∧ c ≠ "uploading")) "sent"
      statusText :=
        some (if status = "delivered" then "Sent" else "Delivered") }

/-- `markMessageAsSent`: locate the acknowledged element by exact id or
by scanning the pending map; do nothing when no element is found or the
found element is not a customer message; otherwise mark it sent and
drop the matching temporary entry from the pending map. -/
def markMessageAsSent (st : WidgetState) (messageId status : String) :
    WidgetState :=
  match locateAckTarget st messageId with
  | none => st
  | some (elId, mtid) =>
      match findById st.messages elId with
      | none => st
      | some el =>
          if el.classes.contains "customer" then
            { st with
                messages :=
                  replaceFirstById st.messages elId
                    (markSentEl messageId status)
                pendingMessages :=
                  match mtid with
                  | some t => mapDelete st.pendingMessages t
                  | none => st.pendingMessages }
          else st

/-- The mutation `markMessageAsFailed` applies to each matching pending
element: swap `pending` for `failed` and, when a status element exists,
set its text to "Failed to send". -/
def markFailedEl (el : MessageEl) : MessageEl :=
  { el with
      classes := addClass (el.classes.filter (fun c => c ≠ "pending")) "failed"
      statusText := el.statusText.map (fun _ => "Failed to send") }

/-- The `forEach` body of `markMessageAsFailed` over the DOM list: for
each `.chat-message.pending` element it dereferences
`querySelector(".message-content").textContent` unguarded, so a pending
element without a content div (an attachment-only message with empty
text) throws a TypeError there — earlier in-place mutations persist,
the element itself and everything after it stay untouched.  Returns the
processed list and whether the loop threw. -/
def markMessageAsFailedList (originalMessage : String) :
    List MessageEl → List MessageEl × Bool
  | [] => ([], false)
  | el :: rest =>
      if el.classes.contains "chat-message" ∧
          el.classes.contains "pending" then
        match el.content with
        | none => (el :: rest, true)
        | some c =>
            let el' := if c = originalMessage then markFailedEl el else el
            let (rest', threw) := markMessageAsFailedList originalMessage rest
            (el' :: rest', threw)
      else
        let (rest', threw) := markMessageAsFailedList originalMessage rest
        (el :: rest', threw)

/-- `markMessageAsFailed`: every `.chat-message.pending` element whose
content equals the original message is marked failed; the traversal
throws (`Except.error`, carrying the partially mutated state) when it
reaches a pending element with no `.message-content` child. -/
def markMessageAsFailed (st : WidgetState) (originalMessage : String) :
    Except WidgetState WidgetState :=
  let (msgs', threw) := markMessageAsFailedList originalMessage st.messages
  if threw then Except.error { st with messages := msgs' }
  else Except.ok { st with messages := msgs' }

/-- `handleMessageError`: show the error banner, then mark matching
pending messages failed (which may throw); emits nothing on the
socket. -/
def handleMessageError (st : WidgetState) (originalMessage : String) :
    Except WidgetState WidgetState × List Effect :=
  (markMessageAsFailed st originalMessage,
   [.banner "Failed to send message. Please try again."])

/-- `handleMessageSent`: on a `message-sent` acknowledgement, mark the
message sent when `data.messageId` is truthy. -/
def handleMessageSent (st : WidgetState) (messageId : Option String)
    (status : String) : WidgetState :=
  match messageId with
  | some mid => if mid = "" then st else markMessageAsSent st mid status
  | none => st

/-! ## Session resume flow (`checkExistingSession` / `resumeSession` /
the `connect` handler / `handleSessionResumed`) -/

/-- `resumeSession`: connect the transport (`initSocket`) and load the
stored session into in-memory state (`state.session`,
`state.customerInfo`). -/
def resumeSession (st : WidgetState) (s : StoredSession) :
    WidgetState × List Effect :=
  ({ st with
      session :=
        { customerId := some s.customerId
          chatSessionId := some s.chatSessionId }
      customerInfo :=
        { name := s.customerName
          phone := s.customerPhone
          email := s.customerEmail } },
   [.connectSocket])

/-- `checkExistingSession`: resume when `getStoredSession` yields a
valid record, otherwise just initialize the socket. -/
def checkExistingSession (st : WidgetState) (store : Option StoredSession)
    (now : Int) : WidgetState × List Effect :=
  match (getStoredSession store now).1 with
  | some s => resumeSession st s
  | none => (st, [.connectSocket])

/-- The `connect` handler of `initSocket`: when the in-memory session
has a truthy chat session id, emit `customer-resume-session` with the
session's ids and the customer-info name. -/
def onConnect (st : WidgetState) : List Effect :=
  match st.session.chatSessionId with
  | some sid =>
      if sid = "" then []
      else
        [.emitCustomerResumeSession st.session.customerId sid
          st.customerInfo.name]
  | none => []

/-- `handleSessionResumed`: load the resumed ids into state, refresh the
stored session (`storeSession`), emit `get-chat-history` for the
resumed chat session id, and render the system notice. -/
def handleSessionResumed (st : WidgetState) (data : SessionData)
    (now : Int) : WidgetState × List Effect :=
  let st1 := { st with
    isChatStarted := true
    session :=
      { customerId := some data.customerId
        chatSessionId := some data.chatSessionId } }
  let st2 := addMessage st1
    { id := "system-session-resumed"
      message := "Session resumed successfully."
      sender_type := 0, isPending := false, isUploading := false,
      files := [] }
  (st2,
   [.writeStorage (storeSession data st1.customerInfo now),
    .emitGetChatHistory data.chatSessionId])

/-- The initialization-with-stored-session trace: check storage (and
resume), then the `connect` event, then the server's `session-resumed`
acknowledgement. -/
def resumeFlow (st : WidgetState) (store : Option StoredSession)
    (now : Int) (data : SessionData) (ackNow : Int) :
    WidgetState × List Effect :=
  let (st1, e1) := checkExistingSession st store now
  let e2 := onConnect st1
  let (st3, e3) := handleSessionResumed st1 data ackNow
  (st3, e1 ++ e2 ++ e3)

/-- Recognizer for `send-message` emissions, used to count send
attempts. -/
def isSendEmit : Effect → Bool
  | .emitSendMessage _ => true
  | _ => false

/-- The file ids of the upload effects in an effect list, in order. -/
def uploadIds : List Effect → List String
  | [] => []
  | .uploadFile fid _ :: r => fid :: uploadIds r
  | _ :: r => uploadIds r

/-- The widget state right before the final `stopTyping` of a
successful `sendMessageWithFiles` (mirrors the local state of that
function; used to state the effect-trace decomposition). -/
def sendWithFilesState (st : WidgetState) (message uid tid : String)
    (files' : List AttachedFile) : WidgetState :=
  let st1 := addMessage st
    { id := uid
      message := if message = "" then "Uploading files..." else message
      sender_type := 2, isPending := true, isUploading := true,
      files := [] }
  let msgFiles := (files'.filter (fun f => f.uploaded)).map
    (fun f => FileRef.mk f.fileName (f.uploadUrl.getD ""))
  let st2 := { st1 with
    attachedFiles := files'
    pendingMessages := mapSet st1.pendingMessages tid
      { message := message, ptype := "file", files := msgFiles } }
  let st3 := addMessage st2
    { id := tid, message := message, sender_type := 2,
      isPending := true, isUploading := false, files := msgFiles }
  { st3 with inputValue := "", attachedFiles := [] }

/-- A typing-indicator event as seen on the socket. -/
inductive TypingEvt where
  | start
  | stop
  deriving Repr, DecidableEq

/-- The typing-indicator events of an effect trace, in order. -/
def typingEvts : List Effect → List TypingEvt
  | [] => []
  | .emitTypingStart _ :: r => .start :: typingEvts r
  | .emitTypingStop _ :: r => .stop :: typingEvts r
  | _ :: r => typingEvts r

/-- Run a start/stop alternation check from a given typing flag: a
`start` is legal only when not typing, a `stop` only when typing; the
final flag is returned when the whole list is legal. -/
def altRun : Bool → List TypingEvt → Option Bool
  | b, [] => some b
  | b, .start :: r => if b then none else altRun true r
  | b, .stop :: r => if b then altRun false r else none

/-- The user-triggered operations that drive the typing indicator: an
input event (the field now holding `text`), the typing timeout firing,
and pressing send. -/
inductive WidgetOp where
  | input (text : String)
  | timerFire
  | send (uploadingId tempId : String) (ok : String → Bool)
      (urlFor : String → String)

/-- One operation step of the widget. -/
def stepOp (st : WidgetState) : WidgetOp → WidgetState × List Effect
  | .input t => handleInputChange { st with inputValue := t }
  | .timerFire => typingTimerFire st
  | .send uid tid ok urlFor => handleSendMessage st uid tid ok urlFor

/-- Run a list of operations, collecting the emitted effects in
order. -/
def runOps (st : WidgetState) : List WidgetOp → WidgetState × List Effect
  | [] => (st, [])
  | op :: rest =>
      let (st1, e1) := stepOp st op
      let (st2, e2) := runOps st1 rest
      (st2, e1 ++ e2)

/-- A blank widget state (fresh widget before any session). -/
def emptyState : WidgetState :=
  { session := { customerId := none, chatSessionId := none }
    customerInfo := { name := "", phone := "", email := "" }
    isTyping := false
    isChatStarted := false
    inputValue := ""
    pendingMessages := []
    attachedFiles := []
    messages := []
    typingTimeout := none }

end ChatWidget

namespace ChatWidget

/-- C2: a stored session is returned by `getStoredSession` iff strictly
less than 24 hours elapsed since its timestamp; at or beyond 24 hours
the record is removed from storage and `null` is returned; and the
record `storeSession` writes carries the `customerId`, `chatSessionId`,
`customerName` and `timestamp` fields. -/
theorem c2_session_expiry (s : StoredSession) (now : Int)
    (d : SessionData) (info : CustomerInfo) (tstamp : Int) :
    ((getStoredSession (some s) now).1 = some s ↔
        now - s.timestamp < sessionExpiryMs) ∧
    (sessionExpiryMs ≤ now - s.timestamp →
        getStoredSession (some s) now = (none, none)) ∧
    (storeSession d info tstamp).customerId = d.customerId ∧
    (storeSession d info tstamp).chatSessionId = d.chatSessionId ∧
    (storeSession d info tstamp).customerName = jsOr d.customerName info.name ∧
    (storeSession d info tstamp).timestamp = tstamp := by
  refine ⟨?_, ?_, rfl, rfl, rfl, rfl⟩
  · simp only [getStoredSession]
    split <;> simp_all
  · intro h
    simp only [getStoredSession, if_neg (not_lt.mpr h)]

/-- C2 witness: a record exactly 24 hours old is purged and one 5 ms
old is returned. -/
theorem c2_session_expiry_witness :
    getStoredSession
        (some ⟨"c1", "s1", "Ann", "", "", 0, "active"⟩) sessionExpiryMs =
      (none, none) ∧
    (getStoredSession
        (some ⟨"c1", "s1", "Ann", "", "", 0, "active"⟩) 5).1 =
      some ⟨"c1", "s1", "Ann", "", "", 0, "active"⟩ :=
  ⟨(c2_session_expiry ⟨"c1", "s1", "Ann", "", "", 0, "active"⟩
      sessionExpiryMs ⟨"c", "s", "", "", ""⟩ ⟨"", "", ""⟩ 0).2.1
      (by decide),
   ((c2_session_expiry ⟨"c1", "s1", "Ann", "", "", 0, "active"⟩ 5
      ⟨"c", "s", "", "", ""⟩ ⟨"", "", ""⟩ 0).1).mpr (by decide)⟩

/-- C3: when the page becomes visible with a socket present and a truthy
chat session id, exactly one `validate-session` event carrying the
session's customer and chat ids is emitted; if any precondition fails,
nothing is emitted. -/
theorem c3_visibility_validate (hidden socketExists : Bool)
    (sess : Session) :
    (∀ sid : String, hidden = false → socketExists = true →
        sess.chatSessionId = some sid → sid ≠ "" →
        onVisibilityChange hidden socketExists sess =
          [Effect.emitValidateSession sess.customerId sid]) ∧
    ((hidden = true ∨ socketExists = false ∨
        optTruthy sess.chatSessionId = false) →
      onVisibilityChange hidden socketExists sess = []) := by
  constructor
  · intro sid h1 h2 h3 h4
    subst h1; subst h2
    simp [onVisibilityChange, validateSession, optTruthy, h3, h4]
  · intro h
    rcases h with h | h | h <;>
      cases hidden <;> cases socketExists <;>
        simp_all [onVisibilityChange, validateSession]

/-- C3 witness: a visible page with a socket and a live session emits
the validate event; a hidden page emits nothing. -/
theorem c3_visibility_validate_witness :
    onVisibilityChange false true
        { customerId := some "c9", chatSessionId := some "s9" } =
      [Effect.emitValidateSession (some "c9") "s9"] ∧
    onVisibilityChange true true
        { customerId := some "c9", chatSessionId := some "s9" } = [] :=
  ⟨(c3_visibility_validate false true
      { customerId := some "c9", chatSessionId := some "s9" }).1 "s9"
      rfl rfl rfl (by decide),
   (c3_visibility_validate true true
      { customerId := some "c9", chatSessionId := some "s9" }).2
      (Or.inl rfl)⟩

/-- C9: `validateFile` accepts a file iff its size is at most
`maxFileSize` and its MIME type is allowed or its lowercased
dot-extension is allowed; in particular a file with a foreign MIME type
but an allowed extension is accepted under the default
configuration. -/
theorem c9_validateFile_iff (cfg : FileUploadConfig) (f : JsFile) :
    (validateFile cfg f = true ↔
        f.size ≤ cfg.maxFileSize ∧
          (f.type ∈ cfg.allowedTypes ∨
            dotExtension f.name ∈ cfg.allowedExtensions)) ∧
    (JsFile.mk "report.PDF" 100 "application/x-custom").type ∉
        defaultFileUpload.allowedTypes ∧
    validateFile defaultFileUpload
        (JsFile.mk "report.PDF" 100 "application/x-custom") = true := by
  refine ⟨?_, by decide, by decide⟩
  simp only [validateFile]
  split
  · simp only [Bool.false_eq_true, false_iff]
    intro h
    omega
  · rename_i h
    simp only [Bool.or_eq_true, List.elem_iff]
    have hsz : f.size ≤ cfg.maxFileSize := by omega
    simp [hsz]

/-- C8: `handleSendMessage` does nothing (no emission, no state change)
when the trimmed input is empty and no files are attached, and with
content but no truthy chat session id it only shows the error banner
and leaves the state unchanged. -/
theorem c8_send_guards (st : WidgetState) (uid tid : String)
    (ok : String → Bool) (urlFor : String → String) :
    (jsTrim st.inputValue = "" → st.attachedFiles = [] →
        handleSendMessage st uid tid ok urlFor = (st, [])) ∧
    ((jsTrim st.inputValue ≠ "" ∨ st.attachedFiles ≠ []) →
        optTruthy st.session.chatSessionId = false →
        handleSendMessage st uid tid ok urlFor =
          (st, [Effect.banner "Chat session not available"])) := by
  constructor
  · intro h1 h2
    simp [handleSendMessage, h1, h2]
  · intro h1 h2
    rcases h1 with h1 | h1 <;> simp [handleSendMessage, h1, h2]

/-- C8 witness: an empty send on a blank widget is a strict no-op, and a
send with text but no session only raises the banner. -/
theorem c8_send_guards_witness :
    handleSendMessage emptyState "u1" "t1" (fun _ => false) (fun _ => "") =
      (emptyState, []) ∧
    handleSendMessage { emptyState with inputValue := "hello" } "u1" "t1"
        (fun _ => false) (fun _ => "") =
      ({ emptyState with inputValue := "hello" },
       [Effect.banner "Chat session not available"]) :=
  ⟨(c8_send_guards emptyState "u1" "t1" (fun _ => false) (fun _ => "")).1
      (by decide) rfl,
   (c8_send_guards { emptyState with inputValue := "hello" } "u1" "t1"
      (fun _ => false) (fun _ => "")).2 (Or.inl (by decide)) rfl⟩

/-- When every `.chat-message.pending` element carries a
`.message-content` child, the failure traversal completes without
throwing and marks exactly the matching elements. -/
theorem markMessageAsFailedList_total (originalMessage : String)
    (msgs : List MessageEl)
    (h : ∀ el ∈ msgs, el.classes.contains "chat-message" = true →
        el.classes.contains "pending" = true → el.content.isSome) :
    markMessageAsFailedList originalMessage msgs =
      (msgs.map (fun el =>
        if el.classes.contains "chat-message" ∧
            el.classes.contains "pending" ∧
            el.content = some originalMessage then
          markFailedEl el
        else el), false) := by
  induction msgs with
  | nil => rfl
  | cons el rest ih =>
      have hrest := ih fun x hx h1 h2 =>
        h x (List.mem_cons_of_mem el hx) h1 h2
      by_cases hm1 : "chat-message" ∈ el.classes
      · by_cases hm2 : "pending" ∈ el.classes
        · have h1 : el.classes.contains "chat-message" = true :=
            List.elem_iff.mpr hm1
          have h2 : el.classes.contains "pending" = true :=
            List.elem_iff.mpr hm2
          obtain ⟨c, hc⟩ := Option.isSome_iff_exists.mp
            (h el (List.mem_cons_self el rest) h1 h2)
          by_cases h3 : c = originalMessage
          · simp [markMessageAsFailedList, hm1, hm2, h1, h2, hc, h3,
              hrest]
          · simp [markMessageAsFailedList, hm1, hm2, h1, h2, hc, h3,
              hrest]
        · simp [markMessageAsFailedList, hm1, hm2, hrest]
      · simp [markMessageAsFailedList, hm1, hrest]

/-- C5 (amended): a `message-error` produces exactly the failure banner
(in particular no `send-message` re-emission) and a text send performs
exactly one `send-message` emission; provided every pending chat
message carries a `.message-content` child (as every non-empty-text
pending message does), the handler completes and marks exactly the
matching pending messages failed, leaving the pending map and session
untouched. -/
theorem c5_single_attempt (st : WidgetState)
    (originalMessage tid msg : String) :
    (handleMessageError st originalMessage).2 =
        [Effect.banner "Failed to send message. Please try again."] ∧
    (handleMessageError st originalMessage).2.countP isSendEmit = 0 ∧
    ((∀ el ∈ st.messages,
        el.classes.contains "chat-message" = true →
        el.classes.contains "pending" = true → el.content.isSome) →
      (handleMessageError st originalMessage).1 =
        Except.ok { st with
          messages := st.messages.map (fun el =>
            if el.classes.contains "chat-message" ∧
                el.classes.contains "pending" ∧
                el.content = some originalMessage then
              markFailedEl el
            else el) }) ∧
    (sendTextMessage st tid msg).2.countP isSendEmit = 1 := by
  refine ⟨rfl, rfl, ?_, ?_⟩
  · intro h
    simp only [handleMessageError, markMessageAsFailed,
      markMessageAsFailedList_total originalMessage st.messages h]
    simp
  · simp only [sendTextMessage, stopTyping]
    split <;> simp [isSendEmit, List.countP_cons] <;>
      split <;> simp [List.countP, List.countP.go, isSendEmit]

/-- C5 counterexample: with an attachment-only pending message (no
`.message-content` child) ahead of a matching pending text message, the
handler throws at the first pending element and the matching message is
never marked failed — it keeps its `pending` class and its
"Sending..." status. -/
theorem c5_single_attempt_counterexample :
    handleMessageError
        { emptyState with
            session := { customerId := some "c", chatSessionId := some "s" }
            messages :=
              [{ messageId := "pending-f",
                 classes := ["chat-message", "customer", "pending"],
                 content := none, statusText := some "Sending...",
                 files := [{ fileName := "a.png", uri := "http://u" }] },
               { messageId := "pending-t",
                 classes := ["chat-message", "customer", "pending"],
                 content := some "hi", statusText := some "Sending...",
                 files := [] }] }
        "hi" =
      (Except.error
        { emptyState with
            session := { customerId := some "c", chatSessionId := some "s" }
            messages :=
              [{ messageId := "pending-f",
                 classes := ["chat-message", "customer", "pending"],
                 content := none, statusText := some "Sending...",
                 files := [{ fileName := "a.png", uri := "http://u" }] },
               { messageId := "pending-t",
                 classes := ["chat-message", "customer", "pending"],
                 content := some "hi", statusText := some "Sending...",
                 files := [] }] },
       [Effect.banner "Failed to send message. Please try again."]) :=
  rfl

/-- C5 witness: with a single pending text message "hi" the handler
completes and marks it failed. -/
theorem c5_single_attempt_witness :
    (handleMessageError
        { emptyState with
            messages :=
              [{ messageId := "p1",
                 classes := ["chat-message", "customer", "pending"],
                 content := some "hi", statusText := some "Sending...",
                 files := [] }] }
        "hi").1 =
      Except.ok
        { emptyState with
            messages :=
              ([{ messageId := "p1",
                  classes := ["chat-message", "customer", "pending"],
                  content := some "hi", statusText := some "Sending...",
                  files := [] }] : List MessageEl).map (fun el =>
                if el.classes.contains "chat-message" ∧
                    el.classes.contains "pending" ∧
                    el.content = some "hi" then
                  markFailedEl el
                else el) } :=
  (c5_single_attempt
      { emptyState with
          messages :=
            [{ messageId := "p1",
               classes := ["chat-message", "customer", "pending"],
               content := some "hi", statusText := some "Sending...",
               files := [] }] }
      "hi" "t1" "m").2.2.1
    (by
      intro el hel h1 h2
      simp only [List.mem_singleton] at hel
      subst hel
      rfl)

/-- The upload-id extraction distributes over list append. -/
theorem uploadIds_append (a b : List Effect) :
    uploadIds (a ++ b) = uploadIds a ++ uploadIds b := by
  induction a with
  | nil => rfl
  | cons e rest ih => cases e <;> simp [uploadIds, ih]

/-- The upload phase uploads exactly the not-yet-uploaded attached
files, in order. -/
theorem uploadAllFiles_ids (files : List AttachedFile)
    (ok : String → Bool) (urlFor : String → String) :
    uploadIds (uploadAllFiles files ok urlFor).2.1 =
      (files.filter (fun f => !f.uploaded)).map (fun f => f.id) := by
  induction files with
  | nil => rfl
  | cons f rest ih =>
      rcases hrec : uploadAllFiles rest ok urlFor with ⟨rest', effs, n⟩
      rw [hrec] at ih
      by_cases hf : f.uploaded <;>
        rcases hok : ok f.id with _ | _ <;>
          simp [uploadAllFiles, hrec, uploadOne, hf, hok, uploadIds,
            uploadIds_append, ih]

/-- The upload phase never emits `send-message`. -/
theorem uploadAllFiles_sendCount (files : List AttachedFile)
    (ok : String → Bool) (urlFor : String → String) :
    (uploadAllFiles files ok urlFor).2.1.countP isSendEmit = 0 := by
  induction files with
  | nil => rfl
  | cons f rest ih =>
      rcases hrec : uploadAllFiles rest ok urlFor with ⟨rest', effs, n⟩
      rw [hrec] at ih
      by_cases hf : f.uploaded <;>
        rcases hok : ok f.id with _ | _ <;>
          simp [uploadAllFiles, hrec, uploadOne, hf, hok,
            List.countP_append, List.countP_cons, isSendEmit, ih]

/-- `stopTyping` performs no uploads. -/
theorem stopTyping_uploadIds (st : WidgetState) :
    uploadIds (stopTyping st).2 = [] := by
  rw [stopTyping]
  split
  · rcases st.session.chatSessionId with _ | sid <;> simp [uploadIds] <;>
      split <;> simp [uploadIds]
  · rfl

/-- `stopTyping` emits no `send-message`. -/
theorem stopTyping_sendCount (st : WidgetState) :
    (stopTyping st).2.countP isSendEmit = 0 := by
  rw [stopTyping]
  split
  · rcases st.session.chatSessionId with _ | sid <;>
      simp [List.countP_cons, isSendEmit] <;>
        split <;> simp [List.countP_cons, isSendEmit]
  · rfl

/-- C7: in a send with attachments every not-yet-uploaded file is
uploaded before any `send-message` emission, the uploads cover exactly
the not-yet-uploaded attachments, a round with zero successful uploads
emits no message and shows the failure banner, and otherwise exactly one
`send-message` is emitted whose `files` are exactly the uploaded
attachments as `fileName` plus upload `uri`. -/
theorem c7_upload_then_send (st : WidgetState) (message uid tid : String)
    (ok : String → Bool) (urlFor : String → String) :
    (∃ rest,
        (sendMessageWithFiles st message uid tid ok urlFor).2 =
          (uploadAllFiles st.attachedFiles ok urlFor).2.1 ++ rest ∧
        (uploadAllFiles st.attachedFiles ok urlFor).2.1.countP isSendEmit
          = 0 ∧
        uploadIds rest = []) ∧
    uploadIds (uploadAllFiles st.attachedFiles ok urlFor).2.1 =
      (st.attachedFiles.filter (fun f => !f.uploaded)).map
        (fun f => f.id) ∧
    ((uploadAllFiles st.attachedFiles ok urlFor).2.2 = 0 →
        (sendMessageWithFiles st message uid tid ok urlFor).2.countP
            isSendEmit = 0 ∧
        Effect.banner "All file uploads failed" ∈
          (sendMessageWithFiles st message uid tid ok urlFor).2) ∧
    ((uploadAllFiles st.attachedFiles ok urlFor).2.2 ≠ 0 →
        ∃ d, Effect.emitSendMessage d ∈
            (sendMessageWithFiles st message uid tid ok urlFor).2 ∧
          d.files = some
            (((uploadAllFiles st.attachedFiles ok urlFor).1.filter
                (fun f => f.uploaded)).map
              (fun f => FileRef.mk f.fileName (f.uploadUrl.getD ""))) ∧
          (sendMessageWithFiles st message uid tid ok urlFor).2.countP
              isSendEmit = 1) := by
  rcases hu : uploadAllFiles st.attachedFiles ok urlFor with
    ⟨files', upEffs, succ⟩
  have hids := uploadAllFiles_ids st.attachedFiles ok urlFor
  have hcnt := uploadAllFiles_sendCount st.attachedFiles ok urlFor
  rw [hu] at hids hcnt
  by_cases hsucc : succ = 0
  · subst hsucc
    refine ⟨⟨[Effect.banner "All file uploads failed"], ?_, hcnt, rfl⟩,
      hids, ?_, by simp [hu]⟩
    · simp [sendMessageWithFiles, hu]
    · intro _
      constructor
      · simp [sendMessageWithFiles, hu, List.countP_append,
          List.countP_cons, isSendEmit, hcnt]
      · simp [sendMessageWithFiles, hu]
  · have heffs0 :
        (sendMessageWithFiles st message uid tid ok urlFor).2 =
          upEffs ++ [Effect.emitSendMessage
            { message := message
              chatId := st.session.chatSessionId
              sender_type := 2
              source := "web"
              chatSessionId := st.session.chatSessionId
              files := some ((files'.filter (fun f => f.uploaded)).map
                (fun f => FileRef.mk f.fileName (f.uploadUrl.getD ""))) }] ++
            (stopTyping (sendWithFilesState st message uid tid files')).2 := by
      simp only [sendMessageWithFiles, hu, if_neg hsucc]
      rfl
    have heffs :
        (sendMessageWithFiles st message uid tid ok urlFor).2 =
          upEffs ++ Effect.emitSendMessage
            { message := message
              chatId := st.session.chatSessionId
              sender_type := 2
              source := "web"
              chatSessionId := st.session.chatSessionId
              files := some ((files'.filter (fun f => f.uploaded)).map
                (fun f => FileRef.mk f.fileName (f.uploadUrl.getD ""))) } ::
            (stopTyping (sendWithFilesState st message uid tid files')).2 := by
      rw [heffs0]
      simp
    have htids :=
      stopTyping_uploadIds (sendWithFilesState st message uid tid files')
    have htcnt :=
      stopTyping_sendCount (sendWithFilesState st message uid tid files')
    refine ⟨⟨_, heffs, hcnt, ?_⟩, hids, fun h => absurd h hsucc,
      fun _ => ?_⟩
    · simp [uploadIds, htids]
    · refine ⟨MessageData.mk message st.session.chatSessionId 2 "web"
          st.session.chatSessionId
          (some ((files'.filter (fun f => f.uploaded)).map
            (fun f => FileRef.mk f.fileName (f.uploadUrl.getD "")))),
        ?_, ?_, ?_⟩
      · rw [heffs]
        exact List.mem_append_right _ (List.mem_cons_self _ _)
      · rfl
      · rw [heffs]
        simp [List.countP_append, List.countP_cons, isSendEmit, hcnt,
          htcnt]

/-- Element lookup skips a prefix that does not carry the id. -/
theorem findById_append_right (msgs l : List MessageEl) (id : String)
    (h : ∀ m ∈ msgs, m.messageId ≠ id) :
    findById (msgs ++ l) id = findById l id := by
  induction msgs with
  | nil => rfl
  | cons m rest ih =>
      have hm : ¬(m.messageId = id) := h m (List.mem_cons_self m rest)
      simp only [findById, List.cons_append, List.find?]
      rw [decide_eq_false hm]
      exact ih fun x hx => h x (List.mem_cons_of_mem m hx)

/-- First-match replacement skips a prefix that does not carry the
id. -/
theorem replaceFirstById_append_right (msgs l : List MessageEl)
    (id : String) (f : MessageEl → MessageEl)
    (h : ∀ m ∈ msgs, m.messageId ≠ id) :
    replaceFirstById (msgs ++ l) id f =
      msgs ++ replaceFirstById l id f := by
  induction msgs with
  | nil => rfl
  | cons m rest ih =>
      have hm : ¬(m.messageId = id) := h m (List.mem_cons_self m rest)
      have ih' := ih fun x hx => h x (List.mem_cons_of_mem m hx)
      simp [replaceFirstById, if_neg hm, ih']

/-- `stopTyping` leaves the message list, the pending map and the
session untouched. -/
theorem stopTyping_preserves (st : WidgetState) :
    (stopTyping st).1.messages = st.messages ∧
    (stopTyping st).1.pendingMessages = st.pendingMessages ∧
    (stopTyping st).1.session = st.session ∧
    (stopTyping st).1.inputValue = st.inputValue := by
  rw [stopTyping]
  split <;> simp

/-- C1: a non-empty text send with a chat session set emits
`send-message` first, tracks the message in the pending map under the
fresh temporary id, and renders it pending as a customer message; the
later `message-sent` acknowledgement with the server id marks that
message sent, replaces its element id by the server id, and removes the
temporary entry from the pending map. -/
theorem c1_optimistic_send_ack (st : WidgetState)
    (sid tempId serverId status message : String)
    (hsid : st.session.chatSessionId = some sid)
    (hmsg : message ≠ "")
    (hpend : st.pendingMessages = [])
    (hfresh : ∀ m ∈ st.messages,
        m.messageId ≠ tempId ∧ m.messageId ≠ serverId)
    (hne : tempId ≠ serverId)
    (hsrv : serverId ≠ "") :
    (sendTextMessage st tempId message).2.head? =
      some (Effect.emitSendMessage
        (MessageData.mk message (some sid) 2 "web" (some sid) none)) ∧
    (sendTextMessage st tempId message).1.pendingMessages =
      [(tempId, PendingInfo.mk message "text" [])] ∧
    (∃ el, findById (sendTextMessage st tempId message).1.messages tempId
        = some el ∧
      el.classes.contains "pending" = true ∧
      el.classes.contains "customer" = true ∧
      el.statusText = some "Sending..." ∧ el.content = some message) ∧
    (handleMessageSent (sendTextMessage st tempId message).1
        (some serverId) status).pendingMessages = [] ∧
    (∃ el, findById (handleMessageSent (sendTextMessage st tempId message).1
        (some serverId) status).messages serverId = some el ∧
      el.classes.contains "sent" = true ∧
      el.classes.contains "pending" = false ∧
      el.content = some message) ∧
    findById (handleMessageSent (sendTextMessage st tempId message).1
        (some serverId) status).messages tempId = none := by
  have hf1 : ∀ m ∈ st.messages, m.messageId ≠ serverId :=
    fun m hm => (hfresh m hm).2
  have hf2 : ∀ m ∈ st.messages, m.messageId ≠ tempId :=
    fun m hm => (hfresh m hm).1
  have hmsgs1 :
      (sendTextMessage st tempId message).1.messages =
        st.messages ++
          [MessageEl.mk tempId ["chat-message", "customer", "pending"]
            (some message) (some "Sending...") []] := by
    simp only [sendTextMessage]
    rw [(stopTyping_preserves _).1]
    simp [addMessage, messageClasses, messageStatus, messageContent, hmsg]
  have hpend1 :
      (sendTextMessage st tempId message).1.pendingMessages =
        [(tempId, PendingInfo.mk message "text" [])] := by
    simp only [sendTextMessage]
    rw [(stopTyping_preserves _).2.1]
    simp [addMessage, mapSet, hpend]
  have hhead :
      (sendTextMessage st tempId message).2.head? =
        some (Effect.emitSendMessage
          (MessageData.mk message (some sid) 2 "web" (some sid) none)) := by
    simp only [sendTextMessage]
    simp [hsid]
  have hfind_srv :
      findById (sendTextMessage st tempId message).1.messages serverId
        = none := by
    rw [hmsgs1, findById_append_right _ _ _ hf1]
    simp [findById, hne]
  have hfind_tmp :
      findById (sendTextMessage st tempId message).1.messages tempId =
        some (MessageEl.mk tempId ["chat-message", "customer", "pending"]
          (some message) (some "Sending...") []) := by
    rw [hmsgs1, findById_append_right _ _ _ hf2]
    simp [findById]
  have hlocate :
      locateAckTarget (sendTextMessage st tempId message).1 serverId =
        some (tempId, some tempId) := by
    simp only [locateAckTarget, hfind_srv, hpend1, findPendingMatch,
      hfind_tmp]
    simp
  have hmark :
      handleMessageSent (sendTextMessage st tempId message).1
          (some serverId) status =
        { (sendTextMessage st tempId message).1 with
            messages := st.messages ++
              [markSentEl serverId status
                (MessageEl.mk tempId
                  ["chat-message", "customer", "pending"]
                  (some message) (some "Sending...") [])]
            pendingMessages := [] } := by
    simp only [handleMessageSent, if_neg hsrv]
    simp only [markMessageAsSent, hlocate, hfind_tmp]
    rw [if_pos (by decide :
      (["chat-message", "customer", "pending"] : List String).contains
        "customer" = true)]
    rw [hmsgs1, replaceFirstById_append_right _ _ _ _ hf2]
    simp [replaceFirstById, mapDelete, hpend1, hmsgs1]
  have hsent_el :
      markSentEl serverId status
          (MessageEl.mk tempId ["chat-message", "customer", "pending"]
            (some message) (some "Sending...") []) =
        MessageEl.mk serverId ["chat-message", "customer", "sent"]
          (some message)
          (some (if status = "delivered" then "Sent" else "Delivered"))
          [] := by
    simp [markSentEl, addClass]
  refine ⟨hhead, hpend1, ⟨_, hfind_tmp, by simp, by simp, rfl, rfl⟩,
    ?_, ?_, ?_⟩
  · rw [hmark]
  · refine ⟨MessageEl.mk serverId ["chat-message", "customer", "sent"]
        (some message)
        (some (if status = "delivered" then "Sent" else "Delivered")) [],
      ?_, by simp, by simp, rfl⟩
    rw [hmark]
    show findById (st.messages ++ [_]) serverId = _
    rw [findById_append_right _ _ _ hf1, hsent_el]
    simp [findById]
  · rw [hmark]
    show findById (st.messages ++ [_]) tempId = _
    rw [findById_append_right _ _ _ hf2, hsent_el]
    simp [findById, Ne.symm hne]

/-- C1 witness: sending "hello" on a live session and acknowledging it
with server id "m9" empties the pending map. -/
theorem c1_optimistic_send_ack_witness :
    (handleMessageSent
        (sendTextMessage
          { emptyState with
              session :=
                { customerId := some "c", chatSessionId := some "s" } }
          "pending-1" "hello").1
        (some "m9") "delivered").pendingMessages = [] :=
  (c1_optimistic_send_ack
      { emptyState with
          session := { customerId := some "c", chatSessionId := some "s" } }
      "s" "pending-1" "m9" "delivered" "hello"
      rfl (by decide) rfl (by simp [emptyState]) (by decide)
      (by decide)).2.2.2.1

/-- C4: initializing with a valid stored session loads it into in-memory
state, connects the transport, emits `customer-resume-session` with the
stored customer id, chat session id and customer name on `connect`, and
emits `get-chat-history` for that chat session id on `session-resumed` —
in that order. -/
theorem c4_resume_flow (st : WidgetState) (s : StoredSession)
    (now ackNow : Int) (data : SessionData)
    (hvalid : now - s.timestamp < sessionExpiryMs)
    (hsid : s.chatSessionId ≠ "")
    (hdata : data.chatSessionId = s.chatSessionId) :
    (checkExistingSession st (some s) now).1.session =
      { customerId := some s.customerId
        chatSessionId := some s.chatSessionId } ∧
    (checkExistingSession st (some s) now).1.customerInfo.name =
      s.customerName ∧
    (resumeFlow st (some s) now data ackNow).2 =
      [Effect.connectSocket,
       Effect.emitCustomerResumeSession (some s.customerId)
         s.chatSessionId s.customerName,
       Effect.writeStorage (storeSession data
         { name := s.customerName, phone := s.customerPhone,
           email := s.customerEmail } ackNow),
       Effect.emitGetChatHistory data.chatSessionId] := by
  have hget : (getStoredSession (some s) now).1 = some s := by
    simp [getStoredSession, hvalid]
  refine ⟨?_, ?_, ?_⟩
  · simp [checkExistingSession, hget, resumeSession]
  · simp [checkExistingSession, hget, resumeSession]
  · simp [resumeFlow, checkExistingSession, hget, resumeSession,
      onConnect, hsid, handleSessionResumed, addMessage]

/-- C4 witness: a concrete fresh stored session resumes through the full
`connect` / `session-resumed` sequence with the expected emissions. -/
theorem c4_resume_flow_witness :
    (resumeFlow emptyState
        (some ⟨"c1", "s1", "Ann", "p", "e", 0, "active"⟩) 10
        ⟨"c1", "s1", "Ann", "p", "e"⟩ 20).2 =
      [Effect.connectSocket,
       Effect.emitCustomerResumeSession (some "c1") "s1" "Ann",
       Effect.writeStorage
         (storeSession ⟨"c1", "s1", "Ann", "p", "e"⟩
           { name := "Ann", phone := "p", email := "e" } 20),
       Effect.emitGetChatHistory "s1"] :=
  (c4_resume_flow emptyState ⟨"c1", "s1", "Ann", "p", "e", 0, "active"⟩
      10 20 ⟨"c1", "s1", "Ann", "p", "e"⟩
      (by decide) (by decide) rfl).2.2

/-- C7 witness: with one not-yet-uploaded attachment whose upload
succeeds, exactly one `send-message` is emitted and it carries that
file's name and upload uri. -/
theorem c7_upload_then_send_witness :
    ∃ d, Effect.emitSendMessage d ∈
        (sendMessageWithFiles
          { emptyState with
              session :=
                { customerId := some "c", chatSessionId := some "s" }
              attachedFiles :=
                [⟨"f1", "a.png", 10, "image/png", false, none⟩] }
          "hi" "u1" "t1" (fun _ => true) (fun _ => "http://u")).2 ∧
      d.files = some
        (((uploadAllFiles
            ({ emptyState with
                session :=
                  { customerId := some "c", chatSessionId := some "s" }
                attachedFiles :=
                  [⟨"f1", "a.png", 10, "image/png", false, none⟩] }
              : WidgetState).attachedFiles
            (fun _ => true) (fun _ => "http://u")).1.filter
            (fun f => f.uploaded)).map
          (fun f => FileRef.mk f.fileName (f.uploadUrl.getD ""))) ∧
      (sendMessageWithFiles
          { emptyState with
              session :=
                { customerId := some "c", chatSessionId := some "s" }
              attachedFiles :=
                [⟨"f1", "a.png", 10, "image/png", false, none⟩] }
          "hi" "u1" "t1" (fun _ => true)
          (fun _ => "http://u")).2.countP isSendEmit = 1 :=
  (c7_upload_then_send
      { emptyState with
          session := { customerId := some "c", chatSessionId := some "s" }
          attachedFiles := [⟨"f1", "a.png", 10, "image/png", false, none⟩] }
      "hi" "u1" "t1" (fun _ => true) (fun _ => "http://u")).2.2.2
    (by decide)

/-- C10: `markMessageAsSent` never modifies a non-customer message: it
is the identity when no target element is located or when the located
element lacks the `customer` class, and any element located through the
pending-message scan necessarily carries the `customer` class. -/
theorem c10_ack_customer_only (st : WidgetState) (mid status : String) :
    (locateAckTarget st mid = none →
        markMessageAsSent st mid status = st) ∧
    (∀ elId mtid el,
        locateAckTarget st mid = some (elId, mtid) →
        findById st.messages elId = some el →
        el.classes.contains "customer" = false →
        markMessageAsSent st mid status = st) ∧
    (∀ pend tid, findPendingMatch pend st.messages = some tid →
        ∃ el, findById st.messages tid = some el ∧
          el.classes.contains "customer" = true) := by
  refine ⟨?_, ?_, ?_⟩
  · intro h
    simp [markMessageAsSent, h]
  · intro elId mtid el h1 h2 h3
    have hnot : "customer" ∉ el.classes := by
      intro hm
      have h4 : el.classes.contains "customer" = true := List.elem_iff.mpr hm
      rw [h3] at h4
      exact Bool.false_ne_true h4
    simp [markMessageAsSent, h1, h2, hnot]
  · intro pend tid h
    induction pend with
    | nil => simp [findPendingMatch] at h
    | cons p rest ih =>
        obtain ⟨ptid, pinfo⟩ := p
        simp only [findPendingMatch] at h
        rcases hfind : findById st.messages ptid with _ | el
        · simp only [hfind] at h
          exact ih h
        · simp only [hfind] at h
          by_cases hc : el.classes.contains "customer" = true
          · rw [if_pos hc] at h
            cases h
            exact ⟨el, hfind, hc⟩
          · rw [if_neg hc] at h
            exact ih h

/-- Typing-event extraction distributes over append. -/
theorem typingEvts_append (a b : List Effect) :
    typingEvts (a ++ b) = typingEvts a ++ typingEvts b := by
  induction a with
  | nil => rfl
  | cons e rest ih => cases e <;> simp [typingEvts, ih]

/-- The upload phase emits no typing events. -/
theorem typingEvts_uploadAllFiles (files : List AttachedFile)
    (ok : String → Bool) (urlFor : String → String) :
    typingEvts (uploadAllFiles files ok urlFor).2.1 = [] := by
  induction files with
  | nil => rfl
  | cons f rest ih =>
      rcases hrec : uploadAllFiles rest ok urlFor with ⟨rest', effs, n⟩
      rw [hrec] at ih
      by_cases hf : f.uploaded <;>
        rcases hok : ok f.id with _ | _ <;>
          simp [uploadAllFiles, hrec, uploadOne, hf, hok, typingEvts,
            typingEvts_append, ih]

/-- The alternation check sequences over append. -/
theorem altRun_append (b : Bool) (l1 l2 : List TypingEvt) :
    altRun b (l1 ++ l2) = (altRun b l1).bind (fun c => altRun c l2) := by
  induction l1 generalizing b with
  | nil => rfl
  | cons e rest ih =>
      cases e <;> by_cases hb : b <;> simp [altRun, hb, ih]

/-- `stopTyping` is alternation-legal from any flag equal to the state's
typing flag, ending at the resulting flag. -/
theorem stopTyping_altRun (t : WidgetState) (sid : String) (b : Bool)
    (h1 : t.session.chatSessionId = some sid) (h2 : sid ≠ "")
    (hb : t.isTyping = b) :
    altRun b (typingEvts (stopTyping t).2) =
      some (stopTyping t).1.isTyping := by
  subst hb
  rw [stopTyping]
  split
  · rename_i hty
    simp [h1, h2, typingEvts, altRun, hty]
  · rename_i hty
    simp only [Bool.not_eq_true] at hty
    simp [typingEvts, altRun, hty]

/-- Every widget operation preserves the session and is
alternation-legal for the typing events it emits. -/
theorem stepOp_altRun (st : WidgetState) (op : WidgetOp) (sid : String)
    (h1 : st.session.chatSessionId = some sid) (h2 : sid ≠ "") :
    (stepOp st op).1.session = st.session ∧
    altRun st.isTyping (typingEvts (stepOp st op).2) =
      some (stepOp st op).1.isTyping := by
  cases op with
  | input t =>
      simp only [stepOp, handleInputChange]
      simp only [h1, if_neg h2]
      split
      · rename_i hc
        simp [typingEvts, altRun, hc.1]
      · simp [typingEvts, altRun]
  | timerFire =>
      simp only [stepOp, typingTimerFire]
      split
      · simp [typingEvts, altRun]
      · exact ⟨(stopTyping_preserves st).2.2.1,
          stopTyping_altRun st sid st.isTyping h1 h2 rfl⟩
  | send uid tid ok urlFor =>
      simp only [stepOp, handleSendMessage]
      split
      · simp [typingEvts, altRun]
      · split
        · simp [typingEvts, altRun]
        · split
          · rcases hu : uploadAllFiles st.attachedFiles ok urlFor with
              ⟨files', upEffs, succ⟩
            have hup : typingEvts upEffs = [] := by
              have h0 := typingEvts_uploadAllFiles st.attachedFiles ok urlFor
              rw [hu] at h0
              exact h0
            by_cases hsucc : succ = 0
            · subst hsucc
              simp only [sendMessageWithFiles, hu, if_pos rfl]
              constructor
              · simp [addMessage]
              · simp [typingEvts_append, hup, typingEvts, altRun,
                  addMessage]
            · simp only [sendMessageWithFiles, hu, if_neg hsucc]
              constructor
              · rw [(stopTyping_preserves _).2.2.1]
                simp [addMessage]
              · rw [typingEvts_append, altRun_append, typingEvts_append,
                  hup]
                exact stopTyping_altRun _ sid st.isTyping h1 h2 rfl
          · simp only [sendTextMessage]
            constructor
            · rw [(stopTyping_preserves _).2.2.1]
              simp [addMessage]
            · exact stopTyping_altRun _ sid st.isTyping h1 h2 rfl

/-- Any run of widget operations preserves the session and is
alternation-legal from the initial typing flag. -/
theorem runOps_altRun (ops : List WidgetOp) (st : WidgetState)
    (sid : String)
    (h1 : st.session.chatSessionId = some sid) (h2 : sid ≠ "") :
    (runOps st ops).1.session = st.session ∧
    altRun st.isTyping (typingEvts (runOps st ops).2) =
      some (runOps st ops).1.isTyping := by
  induction ops generalizing st with
  | nil => simp [runOps, typingEvts, altRun]
  | cons op rest ih =>
      rcases hstep : stepOp st op with ⟨st1, e1⟩
      have hs := stepOp_altRun st op sid h1 h2
      rw [hstep] at hs
      obtain ⟨hsess, halt⟩ := hs
      have h1' : st1.session.chatSessionId = some sid := by
        rw [hsess]; exact h1
      obtain ⟨hsess2, halt2⟩ := ih st1 h1'
      rcases hrun : runOps st1 rest with ⟨st2, e2⟩
      rw [hrun] at hsess2 halt2
      constructor
      · simp only [runOps, hstep, hrun]
        rw [hsess2, hsess]
      · simp only [runOps, hstep, hrun]
        rw [typingEvts_append, altRun_append, halt]
        simpa using halt2

/-- A legal alternation never holds two starts without an intervening
stop. -/
theorem altRun_no_double_start (l1 : List TypingEvt) :
    ∀ (b : Bool) (l2 l3 : List TypingEvt),
      altRun b (l1 ++ TypingEvt.start :: l2 ++ TypingEvt.start :: l3) ≠
        none →
      TypingEvt.stop ∈ l2 := by
  induction l1 with
  | nil =>
      intro b l2 l3 h
      simp only [List.nil_append, altRun] at h
      by_cases hb : b
      · simp [hb] at h
      · rw [if_neg hb] at h
        cases l2 with
        | nil =>
            simp only [List.nil_append, altRun] at h
            simp at h
        | cons e r =>
            cases e with
            | start =>
                simp only [List.cons_append, altRun] at h
                simp at h
            | stop => exact List.mem_cons_self _ _
  | cons e l1' ih =>
      intro b l2 l3 h
      cases e with
      | start =>
          simp only [List.cons_append, altRun] at h
          by_cases hb : b
          · simp [hb] at h
          · rw [if_neg hb] at h
            exact ih true l2 l3 h
      | stop =>
          simp only [List.cons_append, altRun] at h
          by_cases hb : b
          · rw [if_pos hb] at h
            exact ih false l2 l3 h
          · simp [hb] at h

/-- C6: while a chat session id is set, typing-start events appear only
on the not-typing-to-typing transition (so two starts never occur
without an intervening stop over any operation run); every input event
(re)arms the 1000 ms typing timeout whose firing emits `typing-stop`
while typing; and a text send emits `typing-stop` immediately while
typing. -/
theorem c6_typing_debounce (st : WidgetState) (ops : List WidgetOp)
    (sid : String)
    (h1 : st.session.chatSessionId = some sid) (h2 : sid ≠ "")
    (h3 : st.isTyping = false) :
    (∀ l1 l2 l3, typingEvts (runOps st ops).2 =
        l1 ++ TypingEvt.start :: l2 ++ TypingEvt.start :: l3 →
        TypingEvt.stop ∈ l2) ∧
    (∀ t : WidgetState, t.session.chatSessionId = some sid →
        (handleInputChange t).1.typingTimeout = some 1000) ∧
    (∀ t : WidgetState, t.session.chatSessionId = some sid →
        t.isTyping = true → (∃ d, t.typingTimeout = some d) →
        (typingTimerFire t).2 = [Effect.emitTypingStop sid]) ∧
    (∀ (t : WidgetState) (tid msg : String),
        t.session.chatSessionId = some sid → t.isTyping = true →
        Effect.emitTypingStop sid ∈ (sendTextMessage t tid msg).2) := by
  refine ⟨?_, ?_, ?_, ?_⟩
  · intro l1 l2 l3 hl
    have halt := (runOps_altRun ops st sid h1 h2).2
    rw [h3, hl] at halt
    exact altRun_no_double_start l1 false l2 l3 (by rw [halt]; simp)
  · intro t ht
    simp only [handleInputChange, ht, if_neg h2]
  · intro t ht hty hd
    obtain ⟨d, hd⟩ := hd
    simp [typingTimerFire, hd, stopTyping, hty, ht, h2]
  · intro t tid msg ht hty
    simp [sendTextMessage, stopTyping, addMessage, hty, ht, h2]

/-- C6 witness: with a live session, typing then letting the timeout
fire emits `typing-stop` for that session. -/
theorem c6_typing_debounce_witness :
    (typingTimerFire
        { emptyState with
            session := { customerId := some "c", chatSessionId := some "s" }
            isTyping := true
            typingTimeout := some 1000 }).2 =
      [Effect.emitTypingStop "s"] :=
  ((c6_typing_debounce
      { emptyState with
          session := { customerId := some "c", chatSessionId := some "s" } }
      [] "s" rfl (by decide) rfl).2.2.1)
    { emptyState with
        session := { customerId := some "c", chatSessionId := some "s" }
        isTyping := true
        typingTimeout := some 1000 }
    rfl rfl ⟨1000, rfl⟩

/-- C10 witness: acknowledging an agent message's id leaves the widget
state untouched. -/
theorem c10_ack_customer_only_witness :
    markMessageAsSent
        { emptyState with
            messages :=
              [{ messageId := "m1", classes := ["chat-message", "agent"],
                 content := some "hi", statusText := none, files := [] }] }
        "m1" "delivered" =
      { emptyState with
          messages :=
            [{ messageId := "m1", classes := ["chat-message", "agent"],
               content := some "hi", statusText := none, files := [] }] } :=
  (c10_ack_customer_only
      { emptyState with
          messages :=
            [{ messageId := "m1", classes := ["chat-message", "agent"],
               content := some "hi", statusText := none, files := [] }] }
      "m1" "delivered").2.1 "m1" none
      { messageId := "m1", classes := ["chat-message", "agent"],
        content := some "hi", statusText := none, files := [] }
      (by decide) (by decide) (by decide)

end ChatWidget
